import Mathlib

/-!
Verification development for the restore-photos repository.

Shallow embedding of the orchestration core: the edit-image route with its
primary/fallback restoration chain (src/app/api/edit-image/route.ts), the
Gemini edit-response parsing (src/lib/gemini-server.ts), the client video
generation loop with provider switching (src/services/api-client.ts,
generateVideo), the pipeline controller handlers
(src/components/PhotoRestoreApp.tsx), the eye-color cache
(src/lib/eye-color-cache.ts) and the rate limiter (src/lib/rate-limiter.ts).

External provider calls are modelled as oracles: each environment record
carries the outcome the corresponding awaited call would produce.  A thrown
JavaScript value is either an Error with a message or some other value,
because the routes branch on instanceof Error when building messages.
-/

namespace RestorePhotos

/-- An image payload as passed between the routes and providers:
the pair of base64 data and mime type returned by editImage and
restoreImageWithReplicate. -/
structure Image where
  data : String
  mimeType : String
deriving DecidableEq, Repr

/-- A thrown JavaScript value: an Error carrying a message, or any other
value (the routes test thrown values with instanceof Error). -/
inductive JsThrown
  | jsError (msg : String)
  | nonError
deriving DecidableEq, Repr

/-! ## Gemini edit-response parsing (src/lib/gemini-server.ts, editImage) -/

/-- One part of a Gemini generateContent response candidate; only the
inlineData field matters to editImage. -/
structure GeminiPart where
  inlineData : Option Image
deriving DecidableEq, Repr

/-- Message thrown when the response has no candidates or parts. -/
def invalidResponseMessage : String := "The AI did not return a valid response."

/-- Message thrown when no part carries an image: the refusal signal. -/
def refusalMessage : String :=
  "The AI did not return an edited image. It might have refused the request."

/-- The loop body test: part.inlineData && part.inlineData.data &&
part.inlineData.mimeType (empty strings are falsy in JavaScript). -/
def partImage (p : GeminiPart) : Option Image :=
  match p.inlineData with
  | some img => if img.data = "" then none else if img.mimeType = "" then none else some img
  | none => none

/-- First part holding a truthy image, in order. -/
def firstImagePart : List GeminiPart → Option Image
  | [] => none
  | p :: ps =>
    match partImage p with
    | some img => some img
    | none => firstImagePart ps

/-- The tail of editImage: response.candidates[0].content.parts is either
absent (invalid response) or a list of parts scanned for an image; with no
image part the refusal error is thrown. -/
def parseEditResponse (parts : Option (List GeminiPart)) : Except String Image :=
  match parts with
  | none => .error invalidResponseMessage
  | some ps =>
    match firstImagePart ps with
    | some img => .ok img
    | none => .error refusalMessage

/-! ## Edit-image route (src/app/api/edit-image/route.ts, POST)

The route body after input validation, rate limiting and input optimization.
Provider call outcomes are supplied by an environment record; the
configuration captures useDoublePass && REPLICATE_API_TOKEN and
USE_REPLICATE_FALLBACK. -/

/-- Route configuration: the request flag useDoublePass, the presence of
process.env.REPLICATE_API_TOKEN, and USE_REPLICATE_FALLBACK. -/
structure EditCfg where
  useDoublePass : Bool
  hasReplicateToken : Bool
  useReplicateFallback : Bool
deriving DecidableEq, Repr

/-- Oracle outcomes for the external calls the route awaits.  Gemini calls
are given as the raw response parts so that refusals arise structurally
(no image part); Replicate calls are given as resolved or thrown. -/
structure EditEnv where
  fluxPass1 : Except JsThrown Image
  geminiPass1Resp : Option (List GeminiPart)
  geminiPass2Resp : Option (List GeminiPart)
  geminiSingleResp : Option (List GeminiPart)
  replicateFallback : Except JsThrown Image
  optimizeRestored : Image → Image

/-- Pass 1 of the double-pass branch: restoreImageWithReplicate with an
empty prompt, falling back to editImage with the enhanced prompt when the
Replicate call throws. -/
def firstPassResult (env : EditEnv) : Except JsThrown Image :=
  match env.fluxPass1 with
  | .ok i => .ok i
  | .error _ => (parseEditResponse env.geminiPass1Resp).mapError JsThrown.jsError

/-- The inner try block computing result: double-pass when useDoublePass and
the Replicate token are both present (pass 2 failure falls back to the pass 1
output), otherwise a single editImage call. -/
def primaryPhase (cfg : EditCfg) (env : EditEnv) : Except JsThrown Image :=
  if cfg.useDoublePass && cfg.hasReplicateToken then
    match firstPassResult env with
    | .error e => .error e
    | .ok fp =>
      match parseEditResponse env.geminiPass2Resp with
      | .ok r => .ok r
      | .error _ => .ok fp
  else (parseEditResponse env.geminiSingleResp).mapError JsThrown.jsError

/-- An HTTP-level response of the route: a 200 with an image body or an
error status with a message body. -/
inductive EditResponse
  | okImage (status : Nat) (img : Image)
  | errMsg (status : Nat) (msg : String)
deriving DecidableEq, Repr

/-- The 500 body when the Replicate fallback also fails, aggregating both
messages when the primary thrown value is an Error. -/
def aggregateMsg (geminiError replicateError : JsThrown) : String :=
  match geminiError with
  | .jsError m1 =>
    "Primary restoration failed: " ++ m1 ++ ". Fallback also failed: " ++
      (match replicateError with
       | .jsError m2 => m2
       | .nonError => "Unknown error")
  | .nonError => "Both primary and fallback image restoration methods failed"

/-- The outer catch: message of the thrown Error, or the generic text. -/
def outerCatchMsg : JsThrown → String
  | .jsError m => m
  | .nonError => "Failed to edit image"

/-- Result of the route together with whether the Replicate fallback call
was awaited (the restoreImageWithReplicate call in the catch block ran). -/
structure EditRouteResult where
  response : EditResponse
  fallbackInvoked : Bool
deriving DecidableEq, Repr

/-- The route body after the rate-limit gate and input optimization: run the
primary phase; on any thrown value, rethrow when fallback is disabled or the
token is missing, otherwise attempt the Replicate fallback once, aggregating
both errors into one 500 when it also fails. -/
def editImageRoute (cfg : EditCfg) (env : EditEnv) : EditRouteResult :=
  match primaryPhase cfg env with
  | .ok img => ⟨.okImage 200 (env.optimizeRestored img), false⟩
  | .error g =>
    if !cfg.useReplicateFallback then ⟨.errMsg 500 (outerCatchMsg g), false⟩
    else if !cfg.hasReplicateToken then ⟨.errMsg 500 (outerCatchMsg g), false⟩
    else
      match env.replicateFallback with
      | .ok img => ⟨.okImage 200 (env.optimizeRestored img), true⟩
      | .error r => ⟨.errMsg 500 (aggregateMsg g r), true⟩

/-! ## Client video generation (src/services/api-client.ts, generateVideo)

The async branch: start a job with the initially selected provider, poll at
5-second intervals up to maxAttempts, and on a failed or canceled status
switch to Replicate exactly when the current provider is Gemini and no
fallback was attempted yet, resetting the attempt counter.  The while loop
with its fallbackAttempted flag and currentProvider variable runs at most
two provider phases, which the model makes explicit. -/

/-- The parsed JSON body of a poll response: its status string and the
optional output reference. -/
structure StatusResult where
  status : String
  output : Option String
deriving DecidableEq, Repr

/-- One poll of the status endpoint: a non-ok HTTP response carrying an
error message, or a parsed status body. -/
inductive PollResult
  | httpError (msg : String)
  | result (r : StatusResult)
deriving DecidableEq, Repr

/-- Outcome of polling one provider phase. -/
inductive PhaseOutcome
  | phaseSuccess (output : String)
  | failedStatus
  | statusError (msg : String)
  | phaseTimedOut
deriving DecidableEq, Repr

/-- The poll attempt bound: maxAttempts = 120 (10 minutes of 5-second
intervals). -/
def maxAttempts : Nat := 120

/-- JavaScript truthiness of statusResult.output: undefined and the empty
string are falsy. -/
def truthyOutput : Option String → Option String
  | some s => if s = "" then none else some s
  | none => none

/-- The success test statusResult.status === succeeded && statusResult.output. -/
def truthySucceeded (st : StatusResult) : Option String :=
  if st.status = "succeeded" then truthyOutput st.output else none

/-- The poll loop for one provider phase; polls is the stream of status
responses for this job handle indexed by the attempts counter, and the
second argument is maxAttempts minus the current counter value (the loop
runs while attempts < maxAttempts, incrementing attempts on every poll that
is neither succeeded-with-output nor failed nor canceled). -/
def runPhaseAux (polls : Nat → PollResult) : Nat → Nat → PhaseOutcome
  | _, 0 => .phaseTimedOut
  | a, r + 1 =>
    match polls a with
    | .httpError m => .statusError m
    | .result st =>
      match truthySucceeded st with
      | some out => .phaseSuccess out
      | none =>
        if st.status = "failed" ∨ st.status = "canceled" then .failedStatus
        else runPhaseAux polls (a + 1) r

/-- A full provider phase: attempts starts at 0 (also after a fallback
switch, which resets it). -/
def runPhase (polls : Nat → PollResult) : PhaseOutcome :=
  runPhaseAux polls 0 maxAttempts

/-- A poll observation that is terminal in no way: a parsed status that is
neither succeeded-with-truthy-output nor failed nor canceled, so the loop
increments attempts and continues. -/
def nonTerminalPoll (p : PollResult) : Prop :=
  ∃ st, p = .result st ∧ truthySucceeded st = none ∧
    st.status ≠ "failed" ∧ st.status ≠ "canceled"

/-- Video providers. -/
inductive Provider
  | gemini
  | replicate
deriving DecidableEq, Repr

/-- Oracle outcomes for the video flow: the poll streams of the Gemini job
and of the Replicate job, whether the initial start call and the fallback
start call resolve, and whether downloading an output reference succeeds. -/
structure VideoEnv where
  geminiPolls : Nat → PollResult
  replicatePolls : Nat → PollResult
  initialStartOk : Bool
  replicateStartOk : Bool
  downloadOk : String → Bool

/-- Initial provider selection: containsChildren === false picks Gemini,
anything else (true or undefined) picks Replicate. -/
def initialProvider (containsChildren : Option Bool) : Provider :=
  if containsChildren = some false then .gemini else .replicate

/-- Poll stream of a provider. -/
def pollsFor (env : VideoEnv) : Provider → (Nat → PollResult)
  | .gemini => env.geminiPolls
  | .replicate => env.replicatePolls

/-- Terminal outcome of generateVideo, one constructor per distinct throw or
return site of the async branch. -/
inductive VideoOutcome
  | videoSuccess (output : String)
  | failedBoth
  | failedSingle
  | videoTimedOut
  | statusCheckError (msg : String)
  | downloadError
  | startError
deriving DecidableEq, Repr

/-- Download of a succeeded output: fetch the reference and build a blob
URL, throwing when the fetch response is not ok. -/
def resolveSuccess (env : VideoEnv) (out : String) : VideoOutcome :=
  if env.downloadOk out then .videoSuccess out else .downloadError

/-- The async branch of generateVideo.  Phase one polls the initially
selected provider.  A failed or canceled status switches to Replicate only
when the current provider is Gemini and fallbackAttempted is still false;
the switch restarts the job, resets attempts to 0 and polls the Replicate
job.  After the switch fallbackAttempted is true and currentProvider is
Replicate, so a second failed or canceled status is terminal
(failedBoth); a failed status with Replicate as the initial provider is
terminal at once (failedSingle). -/
def generateVideoModel (containsChildren : Option Bool) (env : VideoEnv) : VideoOutcome :=
  if !env.initialStartOk then .startError
  else
    match runPhase (pollsFor env (initialProvider containsChildren)) with
    | .phaseSuccess out => resolveSuccess env out
    | .statusError m => .statusCheckError m
    | .phaseTimedOut => .videoTimedOut
    | .failedStatus =>
      if initialProvider containsChildren = .gemini then
        if env.replicateStartOk then
          match runPhase env.replicatePolls with
          | .phaseSuccess out => resolveSuccess env out
          | .statusError m => .statusCheckError m
          | .phaseTimedOut => .videoTimedOut
          | .failedStatus => .failedBoth
        else .startError
      else .failedSingle

/-! ## Pipeline controller (src/components/PhotoRestoreApp.tsx)

The AppStep state, the analysis retry loop of handleImageDrop, and the
final state reached by handleImageDrop and handleGenerateVideo as functions
of the awaited call outcomes. -/

/-- The AppStep union type of src/types/index.ts. -/
inductive AppStep
  | idle
  | analyzing
  | correcting
  | restoring
  | translating
  | readyForVideo
  | generatingVideo
  | done
deriving DecidableEq, Repr

/-- The fields of an ImageAnalysis that drive control flow;
containsChildren is optional because the retry loop validates
typeof analysis.containsChildren !== undefined. -/
structure ImageAnalysis where
  containsChildren : Option Bool
  needsPerspectiveCorrection : Bool
  hasManyPeople : Bool
  isBlackAndWhite : Bool
  isVeryOld : Bool
deriving DecidableEq, Repr

/-- The analysis retry bound maxRetries = 3. -/
def analysisMaxRetries : Nat := 3

/-- Result of the retry loop: the final outcome, the number of analyzeImage
calls performed, and the backoff delays (milliseconds) slept between
attempts. -/
structure AnalysisRetryTrace where
  result : Except String ImageAnalysis
  attemptsMade : Nat
  delays : List Nat
deriving Repr

/-- Validation inside the loop: the attempt succeeds only when the call
resolved and containsChildren is present; an incomplete response is thrown
and caught like any other failure. -/
def analysisComplete : Except String ImageAnalysis → Option ImageAnalysis
  | .ok a => if a.containsChildren.isSome then some a else none
  | .error _ => none

/-- Message of the caught failure: the thrown provider error, or the
Incomplete analysis response error thrown by the validation. -/
def analysisFailMessage : Except String ImageAnalysis → String
  | .ok _ => "Incomplete analysis response"
  | .error m => m

/-- The while loop of handleImageDrop: attempts is the stream of
analyzeImage outcomes, retryCount the current counter, and the last
argument maxRetries minus retryCount.  Every caught failure increments
retryCount; the third failure throws the aggregate error, earlier failures
sleep 1000 * retryCount milliseconds and retry.  The base case models the
dead guard after the loop. -/
def analysisRetryAux (attempts : Nat → Except String ImageAnalysis) :
    Nat → Nat → AnalysisRetryTrace
  | retryCount, 0 =>
    ⟨.error "Failed to analyze image: analysis result is undefined", retryCount, []⟩
  | retryCount, r + 1 =>
    match analysisComplete (attempts retryCount) with
    | some a => ⟨.ok a, retryCount + 1, []⟩
    | none =>
      if retryCount + 1 ≥ analysisMaxRetries then
        ⟨.error ("Failed to analyze image after " ++ toString analysisMaxRetries ++
            " attempts: " ++ analysisFailMessage (attempts retryCount)),
          retryCount + 1, []⟩
      else
        let t := analysisRetryAux attempts (retryCount + 1) r
        ⟨t.result, t.attemptsMade, 1000 * (retryCount + 1) :: t.delays⟩

/-- The retry loop from its start: retryCount = 0. -/
def analysisRetry (attempts : Nat → Except String ImageAnalysis) : AnalysisRetryTrace :=
  analysisRetryAux attempts 0 analysisMaxRetries

/-- Oracle outcomes for one handleImageDrop run: the credit checks, the
file read, the analysis attempt stream, the perspective-correction and
restoration edit calls, the translation call, and the UI language. -/
structure DropEnv where
  creditsOk : Bool
  completeActionOk : Bool
  filePart : Except String Image
  analysisAttempts : Nat → Except String ImageAnalysis
  correctionResult : Except String Image
  restoreResult : Except String Image
  translateResult : Except String String
  languageEs : Bool

/-- Final step and error of handleImageDrop.  The guard returns untouched
when the current step is not idle; the credit paths set an error while the
step stays idle; the try block walks analyzing, optionally correcting,
restoring, optionally translating, and ends at readyForVideo; the catch
sets the error message and the step back to idle. -/
def handleImageDrop (currentStep : AppStep) (env : DropEnv) : AppStep × Option String :=
  if currentStep ≠ .idle then (currentStep, none)
  else if !env.creditsOk then
    (.idle, some "Not enough credits for photo restoration. Please get more credits.")
  else if !env.completeActionOk then
    (.idle, some "Failed to process credit payment. Please try again.")
  else
    match env.filePart with
    | .error m => (.idle, some m)
    | .ok _ =>
      match (analysisRetry env.analysisAttempts).result with
      | .error m => (.idle, some m)
      | .ok analysis =>
        match (if analysis.needsPerspectiveCorrection then env.correctionResult
               else .ok ⟨"", ""⟩ : Except String Image) with
        | .error m => (.idle, some m)
        | .ok _ =>
          match env.restoreResult with
          | .error m => (.idle, some m)
          | .ok _ =>
            if env.languageEs then
              match env.translateResult with
              | .error m => (.idle, some m)
              | .ok _ => (.readyForVideo, none)
            else (.readyForVideo, none)

/-- Oracle outcomes for one handleGenerateVideo run.  The generateVeoPrompt
call has its own try block whose failure is absorbed, so it does not appear
here. -/
structure GenVideoEnv where
  hasAnalysisAndRestored : Bool
  creditsOk : Bool
  completeActionOk : Bool
  videoResult : Except String String

/-- Final step and error of handleGenerateVideo: the guard returns when the
analysis or the restored image is missing, the credit paths set an error
without moving, success ends at done, and the catch sets the error and
moves to readyForVideo. -/
def handleGenerateVideo (currentStep : AppStep) (env : GenVideoEnv) : AppStep × Option String :=
  if !env.hasAnalysisAndRestored then (currentStep, none)
  else if !env.creditsOk then
    (currentStep, some "Not enough credits for video generation. Please get more credits.")
  else if !env.completeActionOk then
    (currentStep, some "Failed to process credit payment. Please try again.")
  else
    match env.videoResult with
    | .ok _ => (.done, none)
    | .error m => (.readyForVideo, some m)

/-! ## Rate limiter (src/lib/rate-limiter.ts, checkRateLimit)

The try block resolves geolocation, fetches or creates the store entry,
resets the counter on a new day, and compares the effective count with the
country-derived limit; the catch fails open. -/

/-- The RateLimitResult interface. -/
structure RateLimitResult where
  allowed : Bool
  remaining : Int
  resetTime : Nat
  country : String
  limit : Nat
deriving DecidableEq, Repr

/-- Geolocation outcome of getUserCountry (which catches its own errors and
never throws). -/
structure GeoInfo where
  country : String
  isChile : Bool
deriving DecidableEq, Repr

/-- getRateLimit: 10 for Chile, 5 otherwise. -/
def getRateLimit (isChile : Bool) : Nat := if isChile then 10 else 5

/-- The stored entry for a fingerprint, with lastReset abstracted to a day
index consumed by the isNewDay comparison. -/
structure RateLimitEntry where
  count : Nat
  country : String
deriving DecidableEq, Repr

/-- The count after entry resolution: 0 for a first-time user, 0 again when
isNewDay(entry.lastReset) holds, otherwise the stored count. -/
def effectiveCount (entry : Option RateLimitEntry) (todayIsNewDay : Bool) : Nat :=
  match entry with
  | none => 0
  | some e => if todayIsNewDay then 0 else e.count

/-- The country reported: the stored one, refreshed from geolocation for a
new user or on a new day. -/
def effectiveCountry (geo : GeoInfo) (entry : Option RateLimitEntry)
    (todayIsNewDay : Bool) : String :=
  match entry with
  | none => geo.country
  | some e => if todayIsNewDay then geo.country else e.country

/-- checkRateLimit: internalError models an exception thrown anywhere in the
try block, answered by the fail-open catch; otherwise allowed is
count < limit and remaining is Math.max(0, limit - count). -/
def checkRateLimitModel (internalError : Bool) (geo : GeoInfo)
    (entry : Option RateLimitEntry) (todayIsNewDay : Bool) (resetTime : Nat) :
    RateLimitResult :=
  if internalError then
    ⟨true, 1, resetTime, "Unknown", 1⟩
  else
    let limit := getRateLimit geo.isChile
    let count := effectiveCount entry todayIsNewDay
    ⟨decide (count < limit), max 0 ((limit : Int) - (count : Int)), resetTime,
      effectiveCountry geo entry todayIsNewDay, limit⟩

/-- The structured metadata of a 429 response body of the edit-image route. -/
structure RateLimit429 where
  limit : Nat
  remaining : Int
  resetTime : Nat
  country : String
deriving DecidableEq, Repr

/-- The rate-limit gate at the top of the edit-image POST: with a
fingerprint present and allowed false, answer 429 carrying limit,
remaining, resetTime and country; otherwise proceed. -/
inductive RoutePrelude
  | rejected429 (info : RateLimit429)
  | proceed
deriving DecidableEq, Repr

/-- The gate as a function of the fingerprint and the checkRateLimit
result. -/
def rateLimitPrelude (fingerprint : Option String) (r : RateLimitResult) : RoutePrelude :=
  match fingerprint with
  | none => .proceed
  | some _ =>
    if r.allowed then .proceed
    else .rejected429 ⟨r.limit, r.remaining, r.resetTime, r.country⟩

/-! ## Eye color cache (src/lib/eye-color-cache.ts, EyeColorCacheService)

The cache is a Map from image key to a Map from eye color to cached image;
both Maps are modelled as association lists in insertion order, matching
JavaScript Map iteration.  Keys are produced by generateImageKey, a btoa of
the first 100 code units of the base64 data with plus, slash and equals
stripped. -/

/-- The base64 alphabet used by btoa. -/
def base64Chars : List Char :=
  "ABCDEFGHIJKLMNOPQRSTUVWXYZabcdefghijklmnopqrstuvwxyz0123456789+/".toList

/-- Character of a 6-bit group. -/
def base64Char (n : Nat) : Char := base64Chars.getD n 'A'

/-- btoa on a byte list: 3-byte groups become 4 characters, the final group
padded with equals signs. -/
def btoaBytes : List Nat → List Char
  | [] => []
  | [b0] =>
    let n := b0 * 65536
    [base64Char (n / 262144 % 64), base64Char (n / 4096 % 64), '=', '=']
  | [b0, b1] =>
    let n := b0 * 65536 + b1 * 256
    [base64Char (n / 262144 % 64), base64Char (n / 4096 % 64),
      base64Char (n / 64 % 64), '=']
  | b0 :: b1 :: b2 :: rest =>
    let n := b0 * 65536 + b1 * 256 + b2
    base64Char (n / 262144 % 64) :: base64Char (n / 4096 % 64) ::
      base64Char (n / 64 % 64) :: base64Char (n % 64) :: btoaBytes rest

/-- generateImageKey: btoa of the first 100 code units with the characters
plus, slash and equals removed. -/
def generateImageKey (base64 : String) : String :=
  ⟨(btoaBytes ((base64.toList.take 100).map Char.toNat)).filter
      (fun c => c ≠ '+' ∧ c ≠ '/' ∧ c ≠ '=')⟩

/-- MAX_CACHE_AGE: one hour in milliseconds. -/
def MAX_CACHE_AGE : Nat := 1000 * 60 * 60

/-- The capacity bound of the cleanup pass: at most 10 original images. -/
def maxOriginals : Nat := 10

/-- A CachedImage entry. -/
structure CachedImage where
  base64 : String
  mimeType : String
  timestamp : Nat
deriving DecidableEq, Repr

/-- Inner Map: eye color to cached image, insertion order. -/
abbrev VariantMap := List (String × CachedImage)

/-- Outer Map: image key to inner Map, insertion order. -/
abbrev EyeCache := List (String × VariantMap)

/-- Map.get: the value at the first occurrence of the key. -/
def mapGet {β : Type} (k : String) : List (String × β) → Option β
  | [] => none
  | (k', v) :: rest => if k = k' then some v else mapGet k rest

/-- Map.set: replace the value in place at an existing key, append a new
key at the end. -/
def mapSet {β : Type} (k : String) (v : β) : List (String × β) → List (String × β)
  | [] => [(k, v)]
  | (k', v') :: rest => if k = k' then (k, v) :: rest else (k', v') :: mapSet k v rest

/-- Map.delete. -/
def mapDelete {β : Type} (k : String) : List (String × β) → List (String × β)
  | [] => []
  | (k', v) :: rest => if k = k' then rest else (k', v) :: mapDelete k rest

/-- Expiry test now - timestamp > MAX_CACHE_AGE (with the truncation of
Nat subtraction agreeing with the JavaScript comparison when the timestamp
lies in the future). -/
def isExpired (now : Nat) (c : CachedImage) : Bool :=
  decide (now - c.timestamp > MAX_CACHE_AGE)

/-- First half of cleanup: drop expired entries from every inner Map, then
drop image keys whose inner Map became empty. -/
def removeExpired (now : Nat) (c : EyeCache) : EyeCache :=
  (c.map (fun kv => (kv.1, kv.2.filter (fun e => !isExpired now e.2)))).filter
    (fun kv => !kv.2.isEmpty)

/-- Math.min over the timestamps of an inner Map (infinity modelled by a
value above every timestamp in use; the capacity pass only sorts nonempty
inner Maps). -/
def minTimestamp (g : VariantMap) : Nat :=
  g.foldr (fun e m => Nat.min e.2.timestamp m) 1000000000000000

/-- Stable insertion of a group into a list ascending by oldest timestamp
(the element being inserted precedes, in the original list, everything
already inserted, so it goes before equal keys). -/
def insertAsc (x : String × VariantMap) : EyeCache → EyeCache
  | [] => [x]
  | y :: ys =>
    if minTimestamp x.2 ≤ minTimestamp y.2 then x :: y :: ys
    else y :: insertAsc x ys

/-- The stable ascending sort of the capacity pass. -/
def sortByOldest : EyeCache → EyeCache
  | [] => []
  | x :: xs => insertAsc x (sortByOldest xs)

/-- Second half of cleanup: with more than 10 image keys, delete the
excess keys whose oldest entry is oldest. -/
def evictOldest (c : EyeCache) : EyeCache :=
  if c.length > maxOriginals then
    (sortByOldest c).take (c.length - maxOriginals) |>.foldl
      (fun acc kv => mapDelete kv.1 acc) c
  else c

/-- The private cleanup run at the end of every set. -/
def cleanup (now : Nat) (c : EyeCache) : EyeCache :=
  evictOldest (removeExpired now c)

/-- setCachedImage: ensure the inner Map for the image key exists, set the
eye color entry with the current timestamp, then cleanup. -/
def setCachedImage (c : EyeCache) (originalBase64 eyeColor : String)
    (restoredImage : Image) (now : Nat) : EyeCache :=
  let imageKey := generateImageKey originalBase64
  let imageCache := (mapGet imageKey c).getD []
  cleanup now
    (mapSet imageKey
      (mapSet eyeColor ⟨restoredImage.data, restoredImage.mimeType, now⟩ imageCache) c)

/-- getCachedImage: look up the image key and the eye color; an expired
entry is deleted and treated as absent.  Returns the value and the cache
after the call. -/
def getCachedImage (c : EyeCache) (originalBase64 eyeColor : String) (now : Nat) :
    Option CachedImage × EyeCache :=
  let imageKey := generateImageKey originalBase64
  match mapGet imageKey c with
  | none => (none, c)
  | some imageCache =>
    match mapGet eyeColor imageCache with
    | none => (none, c)
    | some cached =>
      if isExpired now cached then
        (none, mapSet imageKey (mapDelete eyeColor imageCache) c)
      else (some cached, c)

/-- clearAllCache. -/
def clearAllCache : EyeCache := []

/-! ## Concrete environments used by counterexamples and witnesses -/

/-- Configuration with useDoublePass off, the Replicate token present and
the fallback enabled. -/
def singlePassCfg : EditCfg := ⟨false, true, true⟩

/-- Configuration with useDoublePass on, the Replicate token present and
the fallback enabled. -/
def doublePassCfg : EditCfg := ⟨true, true, true⟩

/-- Environment in which the single Gemini call answers with parts holding
no image (a refusal) while the Replicate fallback would succeed. -/
def refusalEnv : EditEnv where
  fluxPass1 := .ok ⟨"flux", "image/png"⟩
  geminiPass1Resp := none
  geminiPass2Resp := none
  geminiSingleResp := some [⟨none⟩]
  replicateFallback := .ok ⟨"replicate", "image/png"⟩
  optimizeRestored := id

/-- Environment in which the Flux pass 1 succeeds and the Gemini pass 2
refuses. -/
def passTwoFailsEnv : EditEnv where
  fluxPass1 := .ok ⟨"flux-first-pass", "image/png"⟩
  geminiPass1Resp := none
  geminiPass2Resp := some [⟨none⟩]
  geminiSingleResp := none
  replicateFallback := .ok ⟨"replicate", "image/png"⟩
  optimizeRestored := id

/-- Environment in which the single Gemini call refuses and the Replicate
fallback throws an Error. -/
def bothFailEnv : EditEnv where
  fluxPass1 := .ok ⟨"flux", "image/png"⟩
  geminiPass1Resp := none
  geminiPass2Resp := none
  geminiSingleResp := some [⟨none⟩]
  replicateFallback := .error (.jsError "Replicate prediction failed")
  optimizeRestored := id

/-- Video environment in which the Replicate job reports failed at once
while the Gemini job would succeed. -/
def replicateFailsEnv : VideoEnv where
  geminiPolls := fun _ => .result ⟨"succeeded", some "gemini-output"⟩
  replicatePolls := fun _ => .result ⟨"failed", none⟩
  initialStartOk := true
  replicateStartOk := true
  downloadOk := fun _ => true

/-- Video environment in which the Gemini job fails at once and the
restarted Replicate job succeeds only at its final poll attempt. -/
def switchResetEnv : VideoEnv where
  geminiPolls := fun _ => .result ⟨"failed", none⟩
  replicatePolls := fun n =>
    if n = 119 then .result ⟨"succeeded", some "replicate-output"⟩
    else .result ⟨"processing", none⟩
  initialStartOk := true
  replicateStartOk := true
  downloadOk := fun _ => true

/-- Video environment in which every poll observes processing. -/
def allProcessingEnv : VideoEnv where
  geminiPolls := fun _ => .result ⟨"processing", none⟩
  replicatePolls := fun _ => .result ⟨"processing", none⟩
  initialStartOk := true
  replicateStartOk := true
  downloadOk := fun _ => true

/-- A complete analysis value. -/
def completeAnalysis : ImageAnalysis := ⟨some false, false, false, false, false⟩

/-- Attempt stream whose first analyzeImage call throws a definitive
provider error and whose second call resolves completely. -/
def providerErrorThenOk : Nat → Except String ImageAnalysis := fun n =>
  if n = 0 then .error "Internal server error" else .ok completeAnalysis

/-- Attempt stream whose every analyzeImage call throws. -/
def allFailAttempts : Nat → Except String ImageAnalysis := fun _ => .error "E"

/-- Generate-video environment whose generateVideo call throws. -/
def videoFailEnv : GenVideoEnv where
  hasAnalysisAndRestored := true
  creditsOk := true
  completeActionOk := true
  videoResult := .error "Video generation failed"

/-- Cache state holding eleven original images, the first of which carries
a valid but old entry so that the capacity pass of cleanup evicts it. -/
def elevenKeyCache : EyeCache :=
  (generateImageKey "a", [("blue", ⟨"x", "image/jpeg", 0⟩)]) ::
    (["b", "c", "d", "e", "f", "g", "h", "i", "j", "k"].map fun s =>
      (generateImageKey s, [("blue", (⟨"x", "image/jpeg", 3000000⟩ : CachedImage))]))

/-! ## Theorems -/

/-- C1 (counterexample): a provider refusal of the single restoration call
(parts present, no image part, the refusal message thrown) is retried via
the Replicate fallback when the fallback is enabled and the token present:
the fallback call runs and its output is returned, contradicting the claim
that a refusal is surfaced immediately and never retried via fallback. -/
theorem refusal_retried_via_fallback_cex :
    primaryPhase singlePassCfg refusalEnv = .error (.jsError refusalMessage) ∧
    (editImageRoute singlePassCfg refusalEnv).fallbackInvoked = true ∧
    (editImageRoute singlePassCfg refusalEnv).response =
      .okImage 200 ⟨"replicate", "image/png"⟩ :=
  ⟨rfl, rfl, rfl⟩

/-- C1 (amended): the edit-image route does not distinguish refusals from
transport failures: every thrown value of the primary phase, the refusal
error included, triggers the single Replicate fallback attempt whenever
USE_REPLICATE_FALLBACK is on and the Replicate token is configured. -/
theorem fallback_on_any_primary_failure (cfg : EditCfg) (env : EditEnv) (e : JsThrown)
    (hfb : cfg.useReplicateFallback = true) (htok : cfg.hasReplicateToken = true)
    (hfail : primaryPhase cfg env = .error e) :
    (editImageRoute cfg env).fallbackInvoked = true := by
  unfold editImageRoute
  rw [hfail, hfb, htok]
  cases env.replicateFallback <;> rfl

/-- C1 (witness): the amended theorem at the environment where both the
primary call and the fallback fail. -/
theorem fallback_on_any_primary_failure_witness :
    singlePassCfg.useReplicateFallback = true ∧ singlePassCfg.hasReplicateToken = true ∧
    (editImageRoute singlePassCfg bothFailEnv).fallbackInvoked = true :=
  ⟨rfl, rfl,
    fallback_on_any_primary_failure singlePassCfg bothFailEnv
      (.jsError refusalMessage) rfl rfl rfl⟩

/-- C2: in a double-pass run whose pass 1 succeeded (via Flux or via the
prompt-driven fallback) and whose pass 2 failed for any reason, the
orchestrated result is exactly the pass 1 output and the route answers 200
with that output post-processed; the operation does not fail. -/
theorem double_pass_second_failure_returns_first_pass
    (cfg : EditCfg) (env : EditEnv) (fp : Image) (e : String)
    (hdp : cfg.useDoublePass = true) (htok : cfg.hasReplicateToken = true)
    (h1 : firstPassResult env = .ok fp)
    (h2 : parseEditResponse env.geminiPass2Resp = .error e) :
    primaryPhase cfg env = .ok fp ∧
    (editImageRoute cfg env).response = .okImage 200 (env.optimizeRestored fp) := by
  have hp : primaryPhase cfg env = .ok fp := by
    unfold primaryPhase
    rw [hdp, htok]
    simp only [Bool.and_self, if_true, h1, h2]
  refine ⟨hp, ?_⟩
  unfold editImageRoute
  rw [hp]

/-- C2 (witness): the theorem at the environment where Flux pass 1 succeeds
and Gemini pass 2 refuses. -/
theorem double_pass_second_failure_returns_first_pass_witness :
    firstPassResult passTwoFailsEnv = .ok ⟨"flux-first-pass", "image/png"⟩ ∧
    parseEditResponse passTwoFailsEnv.geminiPass2Resp = .error refusalMessage ∧
    primaryPhase doublePassCfg passTwoFailsEnv = .ok ⟨"flux-first-pass", "image/png"⟩ ∧
    (editImageRoute doublePassCfg passTwoFailsEnv).response =
      .okImage 200 ⟨"flux-first-pass", "image/png"⟩ := by
  have h := double_pass_second_failure_returns_first_pass doublePassCfg passTwoFailsEnv
    ⟨"flux-first-pass", "image/png"⟩ refusalMessage rfl rfl rfl rfl
  exact ⟨rfl, rfl, h.1, h.2⟩

/-- C3: when the primary phase throws an Error and the Replicate fallback
also throws an Error, the route answers 500 with the two messages
concatenated into one body, so the primary error is not dropped. -/
theorem both_failed_aggregated_500 (cfg : EditCfg) (env : EditEnv) (m1 m2 : String)
    (hfb : cfg.useReplicateFallback = true) (htok : cfg.hasReplicateToken = true)
    (hg : primaryPhase cfg env = .error (.jsError m1))
    (hr : env.replicateFallback = .error (.jsError m2)) :
    (editImageRoute cfg env).response =
      .errMsg 500 ("Primary restoration failed: " ++ m1 ++
        ". Fallback also failed: " ++ m2) := by
  unfold editImageRoute
  rw [hg, hfb, htok, hr]
  rfl

/-- C3 (witness): the theorem at the environment where the primary call
refuses and the Replicate fallback throws. -/
theorem both_failed_aggregated_500_witness :
    (editImageRoute singlePassCfg bothFailEnv).response =
      .errMsg 500 ("Primary restoration failed: " ++ refusalMessage ++
        ". Fallback also failed: " ++ "Replicate prediction failed") :=
  both_failed_aggregated_500 singlePassCfg bothFailEnv refusalMessage
    "Replicate prediction failed" rfl rfl rfl rfl

/-- C9: with the limiter running normally, a count below the
country-derived limit yields allowed with remaining equal to limit minus
count, a count at or above the limit yields not-allowed, and every
not-allowed result is answered by the route prelude with a 429 carrying the
structured limit, remaining, resetTime and country metadata. -/
theorem rate_limit_check_spec (geo : GeoInfo) (entry : Option RateLimitEntry)
    (newDay : Bool) (rt : Nat) (fp : String) :
    (effectiveCount entry newDay < getRateLimit geo.isChile →
      (checkRateLimitModel false geo entry newDay rt).allowed = true ∧
      (checkRateLimitModel false geo entry newDay rt).remaining =
        (getRateLimit geo.isChile : Int) - (effectiveCount entry newDay : Int)) ∧
    (getRateLimit geo.isChile ≤ effectiveCount entry newDay →
      (checkRateLimitModel false geo entry newDay rt).allowed = false) ∧
    ((checkRateLimitModel false geo entry newDay rt).allowed = false →
      rateLimitPrelude (some fp) (checkRateLimitModel false geo entry newDay rt) =
        .rejected429 ⟨(checkRateLimitModel false geo entry newDay rt).limit,
          (checkRateLimitModel false geo entry newDay rt).remaining,
          (checkRateLimitModel false geo entry newDay rt).resetTime,
          (checkRateLimitModel false geo entry newDay rt).country⟩) := by
  refine ⟨fun h => ⟨?_, ?_⟩, fun h => ?_, fun h => ?_⟩
  · simp [checkRateLimitModel, h]
  · simp only [checkRateLimitModel, if_false, Bool.false_eq_true]
    omega
  · simp only [checkRateLimitModel, if_false, Bool.false_eq_true]
    simpa using h
  · simp [rateLimitPrelude, h]

/-- C9 (witness): the theorem for a Chilean user with three uses of a
limit of ten. -/
theorem rate_limit_check_spec_witness :
    effectiveCount (some ⟨3, "Chile"⟩) false < getRateLimit true ∧
    (checkRateLimitModel false ⟨"Chile", true⟩ (some ⟨3, "Chile"⟩) false 0).allowed = true ∧
    (checkRateLimitModel false ⟨"Chile", true⟩ (some ⟨3, "Chile"⟩) false 0).remaining = 7 := by
  have h := (rate_limit_check_spec ⟨"Chile", true⟩ (some ⟨3, "Chile"⟩) false 0 "fp").1
    (by decide)
  refine ⟨by decide, h.1, ?_⟩
  rw [h.2]
  norm_num [effectiveCount, getRateLimit]

/-- C10: an exception anywhere inside checkRateLimit is answered by the
fail-open result: allowed with limit 1 and remaining 1, so a
limiter-internal error never blocks a request. -/
theorem rate_limit_fail_open (geo : GeoInfo) (entry : Option RateLimitEntry)
    (newDay : Bool) (rt : Nat) :
    checkRateLimitModel true geo entry newDay rt = ⟨true, 1, rt, "Unknown", 1⟩ := rfl

/-- C6 (counterexample): a failure of the generateVideo call transitions
the pipeline to readyForVideo, not to idle, contradicting the claim that
every failure from a non-idle state returns to idle. -/
theorem video_failure_returns_to_ready_cex :
    handleGenerateVideo .readyForVideo videoFailEnv =
      (.readyForVideo, some "Video generation failed") ∧
    AppStep.readyForVideo ≠ AppStep.idle :=
  ⟨rfl, by decide⟩

/-- C6 (amended): a failure of any orchestrator call of the upload pipeline
(analysis, perspective correction, restoration, translation) transitions the
state back to idle with a user-visible error — the only non-idle outcome of
handleImageDrop is the readyForVideo success with no error — while a
failure of the video-generation call transitions to readyForVideo (not
idle) with a user-visible error. -/
theorem pipeline_failure_steps :
    (∀ env : DropEnv, (handleImageDrop .idle env).1 = .idle ∨
      handleImageDrop .idle env = (.readyForVideo, none)) ∧
    (∀ (env : GenVideoEnv) (m : String), env.hasAnalysisAndRestored = true →
      env.creditsOk = true → env.completeActionOk = true →
      env.videoResult = .error m →
      handleGenerateVideo .readyForVideo env = (.readyForVideo, some m)) := by
  constructor
  · intro env
    unfold handleImageDrop
    repeat' split
    all_goals first
      | exact Or.inl rfl
      | exact Or.inr rfl
  · intro env m h1 h2 h3 h4
    unfold handleGenerateVideo
    rw [h1, h2, h3, h4]
    rfl

/-- C6 (witness): the amended theorem at the failing video environment. -/
theorem pipeline_failure_steps_witness :
    videoFailEnv.hasAnalysisAndRestored = true ∧
    handleGenerateVideo .readyForVideo videoFailEnv =
      (.readyForVideo, some "Video generation failed") :=
  ⟨rfl, pipeline_failure_steps.2 videoFailEnv "Video generation failed" rfl rfl rfl rfl⟩

/-- C7 (counterexample): a definitive provider error on the first
analyzeImage attempt is retried like any other failure: a backoff sleep of
1000 milliseconds happens and a second attempt runs and succeeds,
contradicting the claim that only structurally incomplete responses are
retried. -/
theorem provider_error_retried_cex :
    analysisComplete (providerErrorThenOk 0) = none ∧
    providerErrorThenOk 0 = .error "Internal server error" ∧
    (analysisRetry providerErrorThenOk).attemptsMade = 2 ∧
    (analysisRetry providerErrorThenOk).delays = [1000] ∧
    (analysisRetry providerErrorThenOk).result = .ok completeAnalysis :=
  ⟨rfl, rfl, rfl, rfl, rfl⟩

/-- C7 (amended): the analysis retry loop performs at most 3 attempts, the
sleeps between attempts follow the linear backoff 1000 * attempt number,
any attempt failure — incomplete response or definitive provider error
alike — is retried until the bound, after which the aggregate error
carrying the last failure message surfaces, and a complete first response
ends the loop at once. -/
theorem analysis_retry_spec (attempts : Nat → Except String ImageAnalysis) :
    (analysisRetry attempts).attemptsMade ≤ 3 ∧
    (analysisRetry attempts).delays =
      (List.range ((analysisRetry attempts).attemptsMade - 1)).map
        (fun i => 1000 * (i + 1)) ∧
    (analysisComplete (attempts 0) = none → analysisComplete (attempts 1) = none →
      analysisComplete (attempts 2) = none →
      (analysisRetry attempts).result =
        .error ("Failed to analyze image after " ++ toString analysisMaxRetries ++
          " attempts: " ++ analysisFailMessage (attempts 2))) ∧
    (∀ a, analysisComplete (attempts 0) = some a →
      (analysisRetry attempts).result = .ok a) := by
  rcases h0 : analysisComplete (attempts 0) with _ | a0
  · rcases h1 : analysisComplete (attempts 1) with _ | a1
    · rcases h2 : analysisComplete (attempts 2) with _ | a2
      · have hm : (analysisRetry attempts).attemptsMade = 3 := by
          simp [analysisRetry, analysisRetryAux, analysisMaxRetries, h0, h1, h2]
        have hd : (analysisRetry attempts).delays = [1000, 2000] := by
          simp [analysisRetry, analysisRetryAux, analysisMaxRetries, h0, h1, h2]
        have hr : (analysisRetry attempts).result =
            .error ("Failed to analyze image after " ++ toString analysisMaxRetries ++
              " attempts: " ++ analysisFailMessage (attempts 2)) := by
          simp [analysisRetry, analysisRetryAux, analysisMaxRetries, h0, h1, h2]
        exact ⟨by rw [hm], by rw [hd, hm]; decide, fun _ _ _ => hr,
          fun a ha => Option.noConfusion ha⟩
      · have hm : (analysisRetry attempts).attemptsMade = 3 := by
          simp [analysisRetry, analysisRetryAux, analysisMaxRetries, h0, h1, h2]
        have hd : (analysisRetry attempts).delays = [1000, 2000] := by
          simp [analysisRetry, analysisRetryAux, analysisMaxRetries, h0, h1, h2]
        exact ⟨by rw [hm], by rw [hd, hm]; decide, fun _ _ hc => Option.noConfusion hc,
          fun a ha => Option.noConfusion ha⟩
    · have hm : (analysisRetry attempts).attemptsMade = 2 := by
        simp [analysisRetry, analysisRetryAux, analysisMaxRetries, h0, h1]
      have hd : (analysisRetry attempts).delays = [1000] := by
        simp [analysisRetry, analysisRetryAux, analysisMaxRetries, h0, h1]
      exact ⟨by rw [hm]; decide, by rw [hd, hm]; decide,
        fun _ hc _ => Option.noConfusion hc, fun a ha => Option.noConfusion ha⟩
  · have hm : (analysisRetry attempts).attemptsMade = 1 := by
      simp [analysisRetry, analysisRetryAux, analysisMaxRetries, h0]
    have hd : (analysisRetry attempts).delays = [] := by
      simp [analysisRetry, analysisRetryAux, analysisMaxRetries, h0]
    have hr : (analysisRetry attempts).result = .ok a0 := by
      simp [analysisRetry, analysisRetryAux, analysisMaxRetries, h0]
    exact ⟨by rw [hm]; decide, by rw [hd, hm]; decide,
      fun hc _ _ => Option.noConfusion hc,
      fun a ha => by rw [hr, Option.some.inj ha]⟩

/-- C7 (witness): the amended theorem at the stream whose every attempt
throws. -/
theorem analysis_retry_spec_witness :
    analysisComplete (allFailAttempts 0) = none ∧
    (analysisRetry allFailAttempts).result =
      .error ("Failed to analyze image after " ++ toString analysisMaxRetries ++
        " attempts: " ++ "E") :=
  ⟨rfl, (analysis_retry_spec allFailAttempts).2.2.1 rfl rfl rfl⟩

/-- The poll loop reads no poll beyond the remaining attempt budget: two
streams agreeing on the inspected window give the same phase outcome. -/
theorem runPhaseAux_congr (polls₁ polls₂ : Nat → PollResult) :
    ∀ (r a : Nat), (∀ i, a ≤ i → i < a + r → polls₁ i = polls₂ i) →
      runPhaseAux polls₁ a r = runPhaseAux polls₂ a r := by
  intro r
  induction r with
  | zero => intro a _; rfl
  | succ n ih =>
    intro a h
    have h0 : polls₁ a = polls₂ a := h a (le_refl a) (by omega)
    unfold runPhaseAux
    rw [h0]
    cases polls₂ a with
    | httpError m => rfl
    | result st =>
      dsimp only
      cases truthySucceeded st with
      | some out => rfl
      | none =>
        by_cases hs : st.status = "failed" ∨ st.status = "canceled"
        · rw [if_pos hs, if_pos hs]
        · rw [if_neg hs, if_neg hs]
          exact ih (a + 1) (fun i hi1 hi2 => h i (by omega) (by omega))

/-- A window of only non-terminal polls exhausts the budget and times the
phase out. -/
theorem runPhaseAux_nonterminal (polls : Nat → PollResult) :
    ∀ (r a : Nat), (∀ i, a ≤ i → i < a + r → nonTerminalPoll (polls i)) →
      runPhaseAux polls a r = .phaseTimedOut := by
  intro r
  induction r with
  | zero => intro a _; rfl
  | succ n ih =>
    intro a h
    obtain ⟨st, hp, hts, hf, hc⟩ := h a (le_refl a) (by omega)
    unfold runPhaseAux
    rw [hp]
    dsimp only
    rw [hts]
    dsimp only
    rw [if_neg (by simp [hf, hc])]
    exact ih (a + 1) (fun i hi1 hi2 => h i (by omega) (by omega))

/-- C4 (counterexample): with the initially selected provider being
Replicate (containsChildren not strictly false), the first failed status is
terminal with no provider switch at all — even though the alternate Gemini
job would succeed — contradicting the claim that the first failed or
canceled status from the initially selected provider restarts the job with
the alternate provider. -/
theorem replicate_first_failure_no_switch_cex :
    initialProvider (some true) = .replicate ∧
    runPhase replicateFailsEnv.replicatePolls = .failedStatus ∧
    runPhase replicateFailsEnv.geminiPolls = .phaseSuccess "gemini-output" ∧
    replicateFailsEnv.downloadOk "gemini-output" = true ∧
    generateVideoModel (some true) replicateFailsEnv = .failedSingle ∧
    VideoOutcome.failedSingle ≠ VideoOutcome.videoSuccess "gemini-output" :=
  ⟨rfl, rfl, rfl, rfl, rfl, by decide⟩

/-- C4 (amended): a provider switch on a failed or canceled status happens
at most once and only when the current provider is Gemini — that is, only
for jobs whose initially selected provider is Gemini: the job restarts with
Replicate and the attempt counter resets (the Replicate phase runs with the
full budget from attempt 0); a failed or canceled status while the current
provider is Replicate, whether initially selected or post-switch, is
terminal with no further fallback. -/
theorem video_fallback_spec (cc : Option Bool) (env : VideoEnv) :
    (initialProvider cc = .gemini → env.initialStartOk = true →
      runPhase env.geminiPolls = .failedStatus → env.replicateStartOk = true →
      ∀ out, runPhase env.replicatePolls = .phaseSuccess out →
      env.downloadOk out = true →
      generateVideoModel cc env = .videoSuccess out) ∧
    (initialProvider cc = .gemini → env.initialStartOk = true →
      runPhase env.geminiPolls = .failedStatus → env.replicateStartOk = true →
      runPhase env.replicatePolls = .failedStatus →
      generateVideoModel cc env = .failedBoth) ∧
    (initialProvider cc = .replicate → env.initialStartOk = true →
      runPhase env.replicatePolls = .failedStatus →
      generateVideoModel cc env = .failedSingle) := by
  refine ⟨fun hip hi hg hr out hrp hdl => ?_,
    fun hip hi hg hr hrp => ?_, fun hip hi hrp => ?_⟩
  · simp [generateVideoModel, pollsFor, resolveSuccess, hip, hi, hg, hr, hrp, hdl]
  · simp [generateVideoModel, pollsFor, hip, hi, hg, hr, hrp]
  · simp [generateVideoModel, pollsFor, hip, hi, hrp]

set_option maxRecDepth 8192 in
/-- C4 (witness): the amended theorem at the environment where the Gemini
job fails at once and the restarted Replicate job succeeds only at its
final poll attempt, showing the switch with the counter reset. -/
theorem video_fallback_spec_witness :
    initialProvider (some false) = .gemini ∧
    runPhase switchResetEnv.geminiPolls = .failedStatus ∧
    runPhase switchResetEnv.replicatePolls = .phaseSuccess "replicate-output" ∧
    generateVideoModel (some false) switchResetEnv = .videoSuccess "replicate-output" :=
  ⟨rfl, rfl, rfl,
    (video_fallback_spec (some false) switchResetEnv).1 rfl rfl rfl rfl
      "replicate-output" rfl rfl⟩

/-- C5: the poll loop inspects at most maxAttempts = 120 polls of each
provider stream (streams agreeing below the bound give the same outcome),
a full window of non-terminal polls of the initially selected provider
always yields the timed-out outcome, and that outcome is distinct from
every failed outcome. -/
theorem video_poll_bound :
    maxAttempts = 120 ∧
    (∀ (cc : Option Bool) (g g' r r' : Nat → PollResult) (iOk rOk : Bool)
      (dl : String → Bool),
      (∀ i, i < maxAttempts → g i = g' i) →
      (∀ i, i < maxAttempts → r i = r' i) →
      generateVideoModel cc ⟨g, r, iOk, rOk, dl⟩ =
        generateVideoModel cc ⟨g', r', iOk, rOk, dl⟩) ∧
    (∀ (cc : Option Bool) (env : VideoEnv), env.initialStartOk = true →
      (∀ i, i < maxAttempts → nonTerminalPoll (pollsFor env (initialProvider cc) i)) →
      generateVideoModel cc env = .videoTimedOut) ∧
    VideoOutcome.videoTimedOut ≠ VideoOutcome.failedSingle ∧
    VideoOutcome.videoTimedOut ≠ VideoOutcome.failedBoth := by
  refine ⟨rfl, fun cc g g' r r' iOk rOk dl hg hr => ?_,
    fun cc env hi hnt => ?_, by decide, by decide⟩
  · have hgem : runPhase g = runPhase g' :=
      runPhaseAux_congr g g' maxAttempts 0 (fun i _ hi2 => hg i (by omega))
    have hrep : runPhase r = runPhase r' :=
      runPhaseAux_congr r r' maxAttempts 0 (fun i _ hi2 => hr i (by omega))
    cases hip : initialProvider cc with
    | gemini => simp [generateVideoModel, pollsFor, resolveSuccess, hip, hgem, hrep]
    | replicate => simp [generateVideoModel, pollsFor, resolveSuccess, hip, hgem, hrep]
  · have ht : runPhase (pollsFor env (initialProvider cc)) = .phaseTimedOut :=
      runPhaseAux_nonterminal _ maxAttempts 0 (fun i _ hi2 => hnt i (by omega))
    unfold generateVideoModel
    rw [hi, ht]
    rfl

/-- C5 (witness): the bound theorem at the environment whose every poll
observes processing: the outcome is timed-out. -/
theorem video_poll_bound_witness :
    allProcessingEnv.initialStartOk = true ∧
    generateVideoModel none allProcessingEnv = .videoTimedOut :=
  ⟨rfl, video_poll_bound.2.2.1 none allProcessingEnv rfl
    (fun i _ => ⟨⟨"processing", none⟩, rfl, rfl, by decide, by decide⟩)⟩

/-- Map.get after Map.set at the same key yields the set value. -/
theorem mapGet_mapSet_self {β : Type} (k : String) (v : β) (m : List (String × β)) :
    mapGet k (mapSet k v m) = some v := by
  induction m with
  | nil => simp [mapSet, mapGet]
  | cons kv rest ih =>
    obtain ⟨k', v'⟩ := kv
    by_cases h : k = k' <;> simp [mapSet, mapGet, h, ih]

/-- Map.get through a value-wise map. -/
theorem mapGet_map_value {β γ : Type} (k : String) (f : β → γ) (m : List (String × β)) :
    mapGet k (m.map (fun kv => (kv.1, f kv.2))) = (mapGet k m).map f := by
  induction m with
  | nil => rfl
  | cons kv rest ih =>
    obtain ⟨k', v'⟩ := kv
    by_cases h : k = k' <;> simp [mapGet, h, ih]

/-- A filter keeps a looked-up binding whose pair satisfies the predicate:
the first occurrence of the key stays the first occurrence. -/
theorem mapGet_filter {β : Type} (k : String) (p : String × β → Bool)
    (m : List (String × β)) (v : β)
    (hv : mapGet k m = some v) (hp : p (k, v) = true) :
    mapGet k (m.filter p) = some v := by
  induction m with
  | nil => simp [mapGet] at hv
  | cons kv rest ih =>
    obtain ⟨k', v'⟩ := kv
    by_cases h : k = k'
    · subst h
      simp [mapGet] at hv
      subst hv
      rw [List.filter_cons, if_pos hp]
      simp [mapGet]
    · simp only [mapGet, if_neg h] at hv
      rw [List.filter_cons]
      split
      · simp only [mapGet, if_neg h]
        exact ih hv
      · exact ih hv

/-- A list with a successful lookup is nonempty. -/
theorem mapGet_isEmpty_false {β : Type} (k : String) (m : List (String × β)) (v : β)
    (h : mapGet k m = some v) : m.isEmpty = false := by
  cases m with
  | nil => simp [mapGet] at h
  | cons kv rest => rfl

/-- Map.set grows the map by at most one binding. -/
theorem mapSet_length {β : Type} (k : String) (v : β) (m : List (String × β)) :
    (mapSet k v m).length ≤ m.length + 1 := by
  induction m with
  | nil => simp [mapSet]
  | cons kv rest ih =>
    obtain ⟨k', v'⟩ := kv
    by_cases h : k = k'
    · simp only [mapSet, if_pos h, List.length_cons]
      omega
    · simp only [mapSet, if_neg h, List.length_cons]
      omega

/-- The expiry pass never grows the cache. -/
theorem removeExpired_length (now : Nat) (c : EyeCache) :
    (removeExpired now c).length ≤ c.length := by
  unfold removeExpired
  calc (List.filter _ (List.map _ c)).length
      ≤ (List.map (fun kv : String × VariantMap =>
          (kv.1, kv.2.filter (fun e => !isExpired now e.2))) c).length :=
        List.length_filter_le _ _
    _ = c.length := List.length_map _ _

/-- C8 (counterexample): with eleven original-image groups present, the
capacity pass of the cleanup run by setCachedImage evicts the group whose
oldest entry is oldest — here the very group that was just written — so
getCachedImage at the same instant (entry age 0, within the TTL) returns
nothing, contradicting the unconditional round-trip claim. -/
theorem cache_set_evicted_cex :
    (getCachedImage
        (setCachedImage elevenKeyCache "a" "green" ⟨"g", "image/jpeg"⟩ 3500000)
        "a" "green" 3500000).1 = none ∧
    3500000 - 3500000 ≤ MAX_CACHE_AGE ∧
    elevenKeyCache.length = 11 := by
  refine ⟨by decide, by decide, by decide⟩

/-- C8 (amended): provided the cache holds fewer than its capacity of ten
original-image groups before the set (so the capacity eviction of cleanup
cannot fire), the round trip holds: after setCachedImage the same
(fingerprint, eye color) lookup returns the stored image while the entry
age is within the TTL, returns nothing once the TTL has elapsed, and
returns nothing after clearAllCache. -/
theorem cache_roundtrip_under_capacity (c : EyeCache) (fp variant : String)
    (img : Image) (t tq : Nat) (hcap : c.length < maxOriginals) :
    (tq - t ≤ MAX_CACHE_AGE →
      (getCachedImage (setCachedImage c fp variant img t) fp variant tq).1 =
        some ⟨img.data, img.mimeType, t⟩) ∧
    (MAX_CACHE_AGE < tq - t →
      (getCachedImage (setCachedImage c fp variant img t) fp variant tq).1 = none) ∧
    (getCachedImage clearAllCache fp variant tq).1 = none := by
  set key := generateImageKey fp with hkey
  set entry : CachedImage := ⟨img.data, img.mimeType, t⟩ with hentry
  set g1 : VariantMap := mapSet variant entry ((mapGet key c).getD []) with hg1
  set c1 : EyeCache := mapSet key g1 c with hc1
  have hvg : mapGet variant g1 = some entry := by
    rw [hg1]; exact mapGet_mapSet_self _ _ _
  have hkc : mapGet key c1 = some g1 := by
    rw [hc1]; exact mapGet_mapSet_self _ _ _
  have hfresh : (!isExpired t entry) = true := by
    rw [hentry]; simp [isExpired]
  have hgF : mapGet variant (g1.filter (fun e => !isExpired t e.2)) = some entry :=
    mapGet_filter variant _ g1 entry hvg hfresh
  have hkR : mapGet key (removeExpired t c1) =
      some (g1.filter (fun e => !isExpired t e.2)) := by
    unfold removeExpired
    apply mapGet_filter
    · rw [mapGet_map_value key (fun g : VariantMap => g.filter (fun e => !isExpired t e.2)) c1,
        hkc]
      rfl
    · simpa using mapGet_isEmpty_false variant _ entry hgF
  have hlen : ¬ (removeExpired t c1).length > maxOriginals := by
    have h1 := removeExpired_length t c1
    have h2 := mapSet_length key g1 c
    rw [← hc1] at h2
    have hmo : maxOriginals = 10 := rfl
    omega
  have hset : setCachedImage c fp variant img t = removeExpired t c1 := by
    show cleanup t c1 = removeExpired t c1
    unfold cleanup evictOldest
    rw [if_neg hlen]
  refine ⟨fun hin => ?_, fun hout => ?_, rfl⟩
  · have hexp : isExpired tq entry = false := by
      rw [hentry]
      simp only [isExpired, decide_eq_false_iff_not, gt_iff_lt, not_lt]
      exact hin
    rw [hset]
    unfold getCachedImage
    dsimp only
    rw [hkR]
    dsimp only
    rw [hgF]
    dsimp only
    rw [hexp]
    rfl
  · have hexp : isExpired tq entry = true := by
      rw [hentry]
      simpa [isExpired] using hout
    rw [hset]
    unfold getCachedImage
    dsimp only
    rw [hkR]
    dsimp only
    rw [hgF]
    dsimp only
    rw [hexp]
    rfl

/-- C8 (witness): the amended theorem at the empty cache: the stored blue
variant reads back within the TTL. -/
theorem cache_roundtrip_under_capacity_witness :
    ([] : EyeCache).length < maxOriginals ∧
    (getCachedImage (setCachedImage [] "photo" "blue" ⟨"img", "image/jpeg"⟩ 1000)
        "photo" "blue" 2000).1 = some ⟨"img", "image/jpeg", 1000⟩ :=
  ⟨by decide,
    (cache_roundtrip_under_capacity [] "photo" "blue" ⟨"img", "image/jpeg"⟩ 1000 2000
      (by decide)).1 (by decide)⟩

end RestorePhotos
